import Mathlib

/-!
Shallow embedding of the dispatch/configuration logic of the matlab-dtts
repository (src/dtt1D.cpp and src/dtt2D.cpp).

Both source files are MEX entry points (`mexFunction`).  The parts embedded
here are exactly the parts the claims are about:

* the argument checks on `prhs[1]` (DTT_TYPE) and `prhs[2]` (DIM) of dtt1D
  (dtt1D.cpp lines 66-104) and the DTT_TYPE checks of dtt2D (lines 59-117);
* the C `double` → `int` truncation used when the type code and DIM are read
  (dtt1D.cpp lines 73, 97; dtt2D.cpp lines 73, 89, 102);
* the degenerate-shape DIM override (dtt1D.cpp lines 128-134);
* the stride/distance geometry switch (dtt1D.cpp lines 152-169);
* the four DTT_TYPE → fftw_r2r_kind switches (dtt1D.cpp lines 178-188,
  dtt2D.cpp lines 73-83, 89-99 and 102-112);
* the argument order of the fused 2D planning call
  `fftw_plan_r2r_2d(NY, NX, in, out, DTT_type_y, DTT_type_x, ...)`
  (dtt2D.cpp line 155).

MATLAB arrays are modelled by `MxArr`: the type/complexity flags and the
dimension vector are what the checked code inspects; the numeric contents
(only ever read through `mxGetPr` as doubles) are carried as a list of
rationals, which represent the relevant values (every IEEE double is a
rational and the code only truncates them to `int`, compares and dispatches).
Calls to `mexErrMsgTxt` abort the MEX call, so the control flow is modelled
with `Except String`, carrying the exact message strings of the source.
-/

/-- The eight `fftw_r2r_kind` selectors used by the source
(FFTW_REDFT00 ... FFTW_RODFT11). -/
inductive Kind where
  | REDFT00 | REDFT10 | REDFT01 | REDFT11
  | RODFT00 | RODFT10 | RODFT01 | RODFT11
deriving DecidableEq, Repr

/-- Model of an `mxArray` argument: type flags, dimensions, real data. -/
structure MxArr where
  isDouble : Bool
  isComplex : Bool
  dims : List Nat
  re : List Rat
deriving DecidableEq, Repr

/-- `mxGetNumberOfElements`: the product of the dimensions. -/
def MxArr.numElements (a : MxArr) : Nat := a.dims.prod

deriving instance DecidableEq for Except

/-- C conversion of a `double` value to `int`: truncation toward zero
(dtt1D.cpp lines 73 and 97, dtt2D.cpp lines 73, 89 and 102 all convert
the double read through `mxGetPr` with a cast to `int`).  A rational
`v.num / v.den` (with `v.den > 0`) truncated toward zero is `Int.tdiv`. -/
def cIntOfDouble (v : Rat) : Int := v.num.tdiv v.den

/-- Geometry computed for `fftw_plan_many_r2r`: transform length `n[0]`,
batch count `howmany`, input/output strides and distances
(dtt1D.cpp lines 46-49 and 152-169). -/
structure Geometry where
  n : Int
  howmany : Int
  istride : Int
  ostride : Int
  idist : Int
  odist : Int
deriving DecidableEq, Repr

/-- Degenerate-shape override of `DIM` (dtt1D.cpp lines 128-134):
`if (NX == 1) DIM = 2; else if (NY == 1) DIM = 1;`. -/
def effectiveDIM (NX NY DIM : Int) : Int :=
  if NX = 1 then 2
  else if NY = 1 then 1
  else DIM

/-- The `switch (DIM)` of dtt1D.cpp lines 152-169, applied after the
override of lines 128-134.  Case 1 transforms over columns, case 2 over
rows, the default calls `mexErrMsgTxt`. -/
def resolveGeometry (NX NY DIM : Int) : Except String Geometry :=
  let d := effectiveDIM NX NY DIM
  if d = 1 then
    .ok ⟨NX, NY, 1, 1, NX, NX⟩
  else if d = 2 then
    .ok ⟨NY, NX, NX, NX, 1, 1⟩
  else
    .error "Input for DIM must be 1 or 2."

/-- The `switch (DTT_type)` of dtt1D.cpp lines 178-188 setting `fKind[0]`. -/
def typeMap1D (c : Int) : Except String Kind :=
  if c = 1 then .ok .REDFT00
  else if c = 2 then .ok .REDFT10
  else if c = 3 then .ok .REDFT01
  else if c = 4 then .ok .REDFT11
  else if c = 5 then .ok .RODFT00
  else if c = 6 then .ok .RODFT10
  else if c = 7 then .ok .RODFT01
  else if c = 8 then .ok .RODFT11
  else .error "Input for DTT_TYPE must be an integer between 1 and 8."

/-- The scalar-code `switch` of dtt2D.cpp lines 73-83, assigning the same
kind to `DTT_type_x` and `DTT_type_y`. -/
def typeMap2Dscalar (c : Int) : Except String (Kind × Kind) :=
  if c = 1 then .ok (.REDFT00, .REDFT00)
  else if c = 2 then .ok (.REDFT10, .REDFT10)
  else if c = 3 then .ok (.REDFT01, .REDFT01)
  else if c = 4 then .ok (.REDFT11, .REDFT11)
  else if c = 5 then .ok (.RODFT00, .RODFT00)
  else if c = 6 then .ok (.RODFT10, .RODFT10)
  else if c = 7 then .ok (.RODFT01, .RODFT01)
  else if c = 8 then .ok (.RODFT11, .RODFT11)
  else .error "Input for DTT_TYPE must be an integer between 1 and 8."

/-- The x-direction `switch` of dtt2D.cpp lines 89-99 (dual-code path). -/
def typeMap2Dx (c : Int) : Except String Kind :=
  if c = 1 then .ok .REDFT00
  else if c = 2 then .ok .REDFT10
  else if c = 3 then .ok .REDFT01
  else if c = 4 then .ok .REDFT11
  else if c = 5 then .ok .RODFT00
  else if c = 6 then .ok .RODFT10
  else if c = 7 then .ok .RODFT01
  else if c = 8 then .ok .RODFT11
  else .error "Input for DTT_TYPE must be an integer between 1 and 8."

/-- The y-direction `switch` of dtt2D.cpp lines 102-112 (dual-code path). -/
def typeMap2Dy (c : Int) : Except String Kind :=
  if c = 1 then .ok .REDFT00
  else if c = 2 then .ok .REDFT10
  else if c = 3 then .ok .REDFT01
  else if c = 4 then .ok .REDFT11
  else if c = 5 then .ok .RODFT00
  else if c = 6 then .ok .RODFT10
  else if c = 7 then .ok .RODFT01
  else if c = 8 then .ok .RODFT11
  else .error "Input for DTT_TYPE must be an integer between 1 and 8."

/-- Arguments of the fused 2D planning call
`fftw_plan_r2r_2d(NY, NX, in, out, DTT_type_y, DTT_type_x, FFTW_ESTIMATE)`
(dtt2D.cpp line 155), in the positional order of the call: first extent,
second extent, first kind, second kind. -/
structure Plan2DArgs where
  extent0 : Int
  extent1 : Int
  kind0 : Kind
  kind1 : Kind
deriving DecidableEq, Repr

/-- The DTT_TYPE checks of dtt1D.cpp lines 66-78: the argument must be a
real double scalar; the value is read with a C double-to-int cast and must
be one of 1..8.  Returns the truncated code. -/
def dttTypeCheck1D (a : MxArr) : Except String Int :=
  if a.isDouble && !a.isComplex && (a.numElements == 1) then
    let t := cIntOfDouble (a.re.headD 0)
    if t = 1 ∨ t = 2 ∨ t = 3 ∨ t = 4 ∨ t = 5 ∨ t = 6 ∨ t = 7 ∨ t = 8 then
      .ok t
    else
      .error "Input for DTT_TYPE must be an integer between 1 and 8."
  else
    .error "Input for DTT_TYPE must be real, scalar, and double precision."

/-- The type check applied to the DIM argument (dtt1D.cpp lines 88-93).
Note the source tests `mxIsDouble(prhs[1]) && !mxIsComplex(prhs[1])`, i.e.
the flags of the DTT_TYPE argument, while only the element count is taken
from the DIM argument `prhs[2]`; the embedding reproduces that. -/
def dimArgCheck (dttTypeArg dimArg : MxArr) : Bool :=
  dttTypeArg.isDouble && !dttTypeArg.isComplex && (dimArg.numElements == 1)

/-- The DIM branch of dtt1D.cpp lines 84-104: when a third argument is
given, run `dimArgCheck`, read the value with a C double-to-int cast and
require it to be 1 or 2; otherwise `DIM` keeps its default value 1
(line 44). -/
def dimOfArg (dttTypeArg : MxArr) : Option MxArr → Except String Int
  | none => .ok 1
  | some a =>
    if dimArgCheck dttTypeArg a then
      let d := cIntOfDouble (a.re.headD 0)
      if d = 1 ∨ d = 2 then .ok d
      else .error "Input for DIM must be 1 or 2."
    else
      .error "Input for DIM must be real, scalar, and double precision."

/-- The dtt1D `mexFunction` pipeline up to the construction of the
`fftw_plan_many_r2r` arguments (dtt1D.cpp lines 56-202), in source order:
DTT_TYPE checks, DIM checks, input-array checks, dimension read, DIM
override and geometry switch, kind switch.  The result collects what is
handed to the planner: the geometry and the transform kind. -/
def dtt1Dmex (input dttTypeArg : MxArr) (dimArg : Option MxArr) :
    Except String (Geometry × Kind) := do
  let dttType ← dttTypeCheck1D dttTypeArg
  let dim ← dimOfArg dttTypeArg dimArg
  if input.isDouble && !input.isComplex then
    if input.dims.length > 2 then
      .error "Input array must be 1D or 2D."
    else
      let NX : Int := (input.dims.headD 0 : Nat)
      let NY : Int := ((input.dims.drop 1).headD 0 : Nat)
      let g ← resolveGeometry NX NY dim
      let k ← typeMap1D dttType
      pure (g, k)
  else
    .error "Input array must be double precision and real."

/-- The DTT_TYPE handling of dtt2D.cpp lines 59-117: the argument must be
real double; a scalar code is routed through the shared scalar switch, a
length-2 vector through the per-direction switches, every other length is
rejected.  Returns the pair `(DTT_type_x, DTT_type_y)`. -/
def dttTypes2D (a : MxArr) : Except String (Kind × Kind) :=
  if a.isDouble && !a.isComplex then
    if a.numElements == 1 then
      typeMap2Dscalar (cIntOfDouble (a.re.headD 0))
    else if a.numElements == 2 then do
      let kx ← typeMap2Dx (cIntOfDouble (a.re.headD 0))
      let ky ← typeMap2Dy (cIntOfDouble ((a.re.drop 1).headD 0))
      pure (kx, ky)
    else
      .error "Input for DTT_TYPE must be scalar or length 2."
  else
    .error "Input for DTT_TYPE must be real, and double precision."

/-- The dtt2D `mexFunction` pipeline up to the `fftw_plan_r2r_2d` call
(dtt2D.cpp lines 49-155), in source order: DTT_TYPE handling, input-array
checks, dimension read, then the planning call with arguments
`(NY, NX, DTT_type_y, DTT_type_x)` — extents and kinds both in (y, x)
order (line 155). -/
def dtt2Dmex (input dttTypeArg : MxArr) : Except String Plan2DArgs := do
  let (kx, ky) ← dttTypes2D dttTypeArg
  if input.isDouble && !input.isComplex then
    if input.dims.length ≠ 2 then
      .error "Input array must be 2D."
    else
      let NX : Int := (input.dims.headD 0 : Nat)
      let NY : Int := ((input.dims.drop 1).headD 0 : Nat)
      pure ⟨NY, NX, ky, kx⟩
  else
    .error "Input array must be double precision and real."

/-- Real double scalar argument holding one value, as produced by a MATLAB
scalar: a 1×1 array. -/
def scalarArg (v : Rat) : MxArr := ⟨true, false, [1, 1], [v]⟩

/-- Real double 1×2 argument holding two values (the `[type_x type_y]`
vector accepted by dtt2D). -/
def vec2Arg (v w : Rat) : MxArr := ⟨true, false, [1, 2], [v, w]⟩

/-- Real double 2D input array of shape NX×NY; the numeric contents are
irrelevant to the dispatch logic modelled here (the planner receives only
pointers to them). -/
def realArr (NX NY : Nat) : MxArr := ⟨true, false, [NX, NY], []⟩

/-- Helper: binding an error in the `Except` monad short-circuits. -/
@[simp] theorem except_error_bind {α β : Type} (e : String) (f : α → Except String β) :
    (Except.error e : Except String α) >>= f = .error e := rfl

/-- Helper: binding a success in the `Except` monad applies the
continuation. -/
@[simp] theorem except_ok_bind {α β : Type} (a : α) (f : α → Except String β) :
    (Except.ok a : Except String α) >>= f = f a := rfl

/-- Helper: mapping over an error in the `Except` monad short-circuits. -/
@[simp] theorem except_map_error {α β : Type} (e : String) (f : α → β) :
    f <$> (Except.error e : Except String α) = .error e := rfl

/-- Helper: mapping over a success in the `Except` monad applies the
function. -/
@[simp] theorem except_map_ok {α β : Type} (a : α) (f : α → β) :
    f <$> (Except.ok a : Except String α) = .ok (f a) := rfl

/-- Helper: the DIM branch only looks at the type flags of its first
argument (the DTT_TYPE array), which `scalarArg` fixes, so the value held
by the DTT_TYPE array does not influence it. -/
theorem dimOfArg_scalarArg (v w : Rat) (a : Option MxArr) :
    dimOfArg (scalarArg v) a = dimOfArg (scalarArg w) a := by
  cases a <;> rfl

/-- Claim C1: for extents NX > 1 and NY > 1 the geometry switch returns the
column-major geometry: DIM=1 (columns) gives length NX, batch NY, stride 1,
distance NX; DIM=2 (rows) gives length NY, batch NX, stride NX, distance 1;
input and output strides and distances coincide. -/
theorem resolveGeometry_nondegenerate (NX NY : Int) (hx : 1 < NX) (hy : 1 < NY) :
    resolveGeometry NX NY 1 = .ok ⟨NX, NY, 1, 1, NX, NX⟩ ∧
    resolveGeometry NX NY 2 = .ok ⟨NY, NX, NX, NX, 1, 1⟩ := by
  have h1 : NX ≠ 1 := by omega
  have h2 : NY ≠ 1 := by omega
  constructor <;> simp [resolveGeometry, effectiveDIM, h1, h2]

/-- Witness for C1 at NX = 3, NY = 2. -/
theorem resolveGeometry_nondegenerate_witness :
    resolveGeometry 3 2 1 = .ok ⟨3, 2, 1, 1, 3, 3⟩ ∧
    resolveGeometry 3 2 2 = .ok ⟨2, 3, 3, 3, 1, 1⟩ :=
  resolveGeometry_nondegenerate 3 2 (by decide) (by decide)

/-- Claim C2: the DTT_TYPE switch of dtt1D is total on 1..8 and hits the
eight kinds in the fixed order 1↔REDFT00, …, 8↔RODFT11; it is injective on
[1,8]; every code outside [1,8] gives the `mexErrMsgTxt` error, and with
such a code (0 or 9 in particular) the whole 1D pipeline aborts with that
error, so no geometry/kind ever reaches the planner. -/
theorem typeMapper_bijection :
    (typeMap1D 1 = .ok .REDFT00 ∧ typeMap1D 2 = .ok .REDFT10 ∧
     typeMap1D 3 = .ok .REDFT01 ∧ typeMap1D 4 = .ok .REDFT11 ∧
     typeMap1D 5 = .ok .RODFT00 ∧ typeMap1D 6 = .ok .RODFT10 ∧
     typeMap1D 7 = .ok .RODFT01 ∧ typeMap1D 8 = .ok .RODFT11) ∧
    (∀ c : Int, c < 1 ∨ 8 < c →
      typeMap1D c = .error "Input for DTT_TYPE must be an integer between 1 and 8.") ∧
    (∀ c d : Int, 1 ≤ c → c ≤ 8 → 1 ≤ d → d ≤ 8 → typeMap1D c = typeMap1D d → c = d) ∧
    (∀ (input : MxArr) (dimArg : Option MxArr),
      dtt1Dmex input (scalarArg 0) dimArg =
        .error "Input for DTT_TYPE must be an integer between 1 and 8." ∧
      dtt1Dmex input (scalarArg 9) dimArg =
        .error "Input for DTT_TYPE must be an integer between 1 and 8.") := by
  refine ⟨⟨rfl, rfl, rfl, rfl, rfl, rfl, rfl, rfl⟩, ?_, ?_, ?_⟩
  · intro c h
    have n1 : c ≠ 1 := by omega
    have n2 : c ≠ 2 := by omega
    have n3 : c ≠ 3 := by omega
    have n4 : c ≠ 4 := by omega
    have n5 : c ≠ 5 := by omega
    have n6 : c ≠ 6 := by omega
    have n7 : c ≠ 7 := by omega
    have n8 : c ≠ 8 := by omega
    simp [typeMap1D, n1, n2, n3, n4, n5, n6, n7, n8]
  · intro c d h1 h2 h3 h4 h
    interval_cases c <;> interval_cases d <;> simp_all [typeMap1D]
  · intro input dimArg
    have h0 : dttTypeCheck1D (scalarArg 0) =
        .error "Input for DTT_TYPE must be an integer between 1 and 8." := by decide
    have h9 : dttTypeCheck1D (scalarArg 9) =
        .error "Input for DTT_TYPE must be an integer between 1 and 8." := by decide
    constructor <;> simp [dtt1Dmex, h0, h9]

/-- Witness for C2: codes 0 and 9 are rejected. -/
theorem typeMapper_bijection_witness :
    typeMap1D 0 = .error "Input for DTT_TYPE must be an integer between 1 and 8." ∧
    typeMap1D 9 = .error "Input for DTT_TYPE must be an integer between 1 and 8." :=
  ⟨typeMapper_bijection.2.1 0 (Or.inl (by decide)),
   typeMapper_bijection.2.1 9 (Or.inr (by decide))⟩

/-- Claim C3: with a length-2 type-code vector, the dtt2D pipeline hands the
planner the extents in (NY, NX) order and the kinds in matching (y, x)
order, so the kind mapped from the x code is paired with the NX extent and
the kind mapped from the y code with the NY extent; consequently the plans
requested for codes [2,3] and [3,2] on a non-square 2×3 input differ. -/
theorem dtt2D_extent_kind_order (NX NY : Nat) (cx cy : Rat) (kx ky : Kind)
    (hx : typeMap2Dx (cIntOfDouble cx) = .ok kx)
    (hy : typeMap2Dy (cIntOfDouble cy) = .ok ky) :
    dtt2Dmex (realArr NX NY) (vec2Arg cx cy) = .ok ⟨(NY : Int), (NX : Int), ky, kx⟩ ∧
    dtt2Dmex (realArr 2 3) (vec2Arg 2 3) ≠ dtt2Dmex (realArr 2 3) (vec2Arg 3 2) := by
  constructor
  · simp [dtt2Dmex, dttTypes2D, vec2Arg, realArr, MxArr.numElements, hx, hy]
  · decide

/-- Witness for C3 at a 2×3 array with codes [2,3]. -/
theorem dtt2D_extent_kind_order_witness :
    dtt2Dmex (realArr 2 3) (vec2Arg 2 3) = .ok ⟨3, 2, .REDFT01, .REDFT10⟩ ∧
    dtt2Dmex (realArr 2 3) (vec2Arg 2 3) ≠ dtt2Dmex (realArr 2 3) (vec2Arg 3 2) :=
  dtt2D_extent_kind_order 2 3 2 3 .REDFT10 .REDFT01 (by decide) (by decide)

/-- Counterexample to claim C4 as stated: the claim asserts that whenever
NY = 1 the effective axis is COLUMNS (DIM 1), but for the 1×1 shape the
source's `else if` gives ROWS (DIM 2), because the NX == 1 branch wins. -/
theorem axisOverride_counterexample :
    ¬ (∀ NX NY DIM : Int, NY = 1 → effectiveDIM NX NY DIM = 1) := by
  intro h
  exact absurd (h 1 1 1 rfl) (by decide)

/-- Claim C4, amended for the 1×1 shape: NX = 1 forces ROWS (DIM 2);
NY = 1 forces COLUMNS (DIM 1) only when NX ≠ 1; a non-degenerate shape
keeps the caller's DIM. -/
theorem axisOverride_effective (NX NY DIM : Int) :
    (NX = 1 → effectiveDIM NX NY DIM = 2) ∧
    (NX ≠ 1 → NY = 1 → effectiveDIM NX NY DIM = 1) ∧
    (1 < NX → 1 < NY → effectiveDIM NX NY DIM = DIM) := by
  refine ⟨?_, ?_, ?_⟩
  · intro h; simp [effectiveDIM, h]
  · intro h h1; simp [effectiveDIM, h, h1]
  · intro h1 h2
    have n1 : NX ≠ 1 := by omega
    have n2 : NY ≠ 1 := by omega
    simp [effectiveDIM, n1, n2]

/-- Witness for the amended C4 at shapes 1×5, 5×1 and 5×4. -/
theorem axisOverride_effective_witness :
    effectiveDIM 1 5 1 = 2 ∧ effectiveDIM 5 1 2 = 1 ∧ effectiveDIM 5 4 2 = 2 :=
  ⟨(axisOverride_effective 1 5 1).1 rfl,
   (axisOverride_effective 5 1 2).2.1 (by decide) rfl,
   (axisOverride_effective 5 4 2).2.2 (by decide) (by decide)⟩

/-- Claim C5: for NX, NY ≥ 2 and either axis the resolved geometry stays
inside the NX·NY buffer — the largest address touched,
stride·(length−1) + distance·(batch−1) + 1, is at most NX·NY (in fact it
equals it) — and length·batch = NX·NY. -/
theorem resolveGeometry_in_bounds (NX NY d : Int) (hx : 2 ≤ NX) (hy : 2 ≤ NY)
    (hd : d = 1 ∨ d = 2) :
    ∃ g, resolveGeometry NX NY d = .ok g ∧
      g.istride * (g.n - 1) + g.idist * (g.howmany - 1) + 1 ≤ NX * NY ∧
      g.n * g.howmany = NX * NY := by
  have h1 : NX ≠ 1 := by omega
  have h2 : NY ≠ 1 := by omega
  rcases hd with rfl | rfl
  · refine ⟨⟨NX, NY, 1, 1, NX, NX⟩, by simp [resolveGeometry, effectiveDIM, h1, h2], ?_, rfl⟩
    show (1 : Int) * (NX - 1) + NX * (NY - 1) + 1 ≤ NX * NY
    exact le_of_eq (by ring)
  · refine ⟨⟨NY, NX, NX, NX, 1, 1⟩, by simp [resolveGeometry, effectiveDIM, h1, h2], ?_, ?_⟩
    · show NX * (NY - 1) + (1 : Int) * (NX - 1) + 1 ≤ NX * NY
      exact le_of_eq (by ring)
    · show NY * NX = NX * NY
      exact mul_comm NY NX

/-- Witness for C5 at NX = NY = 2, DIM = 1. -/
theorem resolveGeometry_in_bounds_witness :
    ∃ g, resolveGeometry 2 2 1 = .ok g ∧
      g.istride * (g.n - 1) + g.idist * (g.howmany - 1) + 1 ≤ 2 * 2 ∧
      g.n * g.howmany = 2 * 2 :=
  resolveGeometry_in_bounds 2 2 1 (by decide) (by decide) (Or.inl rfl)

/-- Counterexample to claim C6 as stated: for NX=1, NY=5 the claim predicts
distance 5, but the code (forced into the DIM=2 branch) sets
idist = odist = 1; for NX=5, NY=1 the claim predicts distance 1, but the
code (forced into the DIM=1 branch) sets idist = odist = NX = 5.  The two
distances in the claim are swapped relative to the code. -/
theorem degenerate_geometry_counterexample :
    resolveGeometry 1 5 1 = .ok ⟨5, 1, 1, 1, 1, 1⟩ ∧
    resolveGeometry 1 5 1 ≠ .ok ⟨5, 1, 1, 1, 5, 5⟩ ∧
    resolveGeometry 5 1 1 = .ok ⟨5, 1, 1, 1, 5, 5⟩ ∧
    resolveGeometry 5 1 1 ≠ .ok ⟨5, 1, 1, 1, 1, 1⟩ := by decide

/-- Claim C6, amended: for NX=1, NY=5 and any requested DIM the resolver
yields length 5, batch 1, stride 1, distance 1 (forced ROWS); for NX=5,
NY=1 it yields length 5, batch 1, stride 1, distance 5 (forced COLUMNS). -/
theorem degenerate_geometry (d : Int) :
    resolveGeometry 1 5 d = .ok ⟨5, 1, 1, 1, 1, 1⟩ ∧
    resolveGeometry 5 1 d = .ok ⟨5, 1, 1, 1, 5, 5⟩ := by
  constructor <;> simp [resolveGeometry, effectiveDIM]

/-- Claim C7: the four DTT_TYPE switches — dtt1D's, dtt2D's scalar path
(both components) and dtt2D's per-direction dual-code paths — agree on
every code in [1,8]. -/
theorem typeMaps_agree (c : Int) (h1 : 1 ≤ c) (h2 : c ≤ 8) :
    ∃ k, typeMap1D c = .ok k ∧ typeMap2Dx c = .ok k ∧ typeMap2Dy c = .ok k ∧
      typeMap2Dscalar c = .ok (k, k) := by
  interval_cases c <;> exact ⟨_, rfl, rfl, rfl, rfl⟩

/-- Witness for C7 at code 5. -/
theorem typeMaps_agree_witness :
    ∃ k, typeMap1D 5 = .ok k ∧ typeMap2Dx 5 = .ok k ∧ typeMap2Dy 5 = .ok k ∧
      typeMap2Dscalar 5 = .ok (k, k) :=
  typeMaps_agree 5 (by decide) (by decide)

/-- Claim C8: a real double DTT_TYPE argument whose element count is
neither 1 nor 2 makes the dtt2D pipeline abort with the length error, so
no planning arguments are ever produced (in the source the abort at lines
115-117 precedes output allocation at line 141 and planning at line 155,
and the transform is out of place, so the input buffer is untouched). -/
theorem dtt2D_typeLength_error (input a : MxArr) (hd : a.isDouble = true)
    (hc : a.isComplex = false) (h1 : a.numElements ≠ 1) (h2 : a.numElements ≠ 2) :
    dtt2Dmex input a = .error "Input for DTT_TYPE must be scalar or length 2." := by
  simp [dtt2Dmex, dttTypes2D, hd, hc, h1, h2]

/-- Witness for C8 with a real double 1×3 type-code vector. -/
theorem dtt2D_typeLength_error_witness :
    dtt2Dmex (realArr 2 2) ⟨true, false, [1, 3], [1, 2, 3]⟩ =
      .error "Input for DTT_TYPE must be scalar or length 2." :=
  dtt2D_typeLength_error (realArr 2 2) ⟨true, false, [1, 3], [1, 2, 3]⟩
    rfl rfl (by decide) (by decide)

/-- Claim C9: the type check guarding the DIM argument tests the flags of
the DTT_TYPE argument `prhs[1]` and only the element count of the DIM
argument `prhs[2]`; hence it accepts any one-element DIM argument once the
DTT_TYPE argument is a real double (first conjunct), it is falsified by a
non-double DTT_TYPE argument whatever the DIM argument is (second
conjunct), and the pipeline then never raises the DIM type error but reads
the DIM value as a double (third conjunct). -/
theorem dimCheck_inspects_dttType_arg :
    (∀ a1 a2 : MxArr, a1.isDouble = true → a1.isComplex = false →
      a2.numElements = 1 → dimArgCheck a1 a2 = true) ∧
    (∀ a1 a2 : MxArr, a1.isDouble = false → dimArgCheck a1 a2 = false) ∧
    (∀ a1 a2 : MxArr, a1.isDouble = true → a1.isComplex = false →
      a2.numElements = 1 →
      dimOfArg a1 (some a2) ≠
        .error "Input for DIM must be real, scalar, and double precision.") := by
  refine ⟨?_, ?_, ?_⟩
  · intro a1 a2 hd hc hn
    simp [dimArgCheck, hd, hc, hn]
  · intro a1 a2 hd
    simp [dimArgCheck, hd]
  · intro a1 a2 hd hc hn
    have h : dimArgCheck a1 a2 = true := by simp [dimArgCheck, hd, hc, hn]
    simp only [dimOfArg, h, if_true]
    split <;> simp

/-- Witness for C9: a complex non-double one-element DIM argument passes
the check when the DTT_TYPE argument is a real double scalar. -/
theorem dimCheck_inspects_dttType_arg_witness :
    dimArgCheck (scalarArg 1) ⟨false, true, [1, 1], [2]⟩ = true ∧
    dimOfArg (scalarArg 1) (some ⟨false, true, [1, 1], [2]⟩) ≠
      .error "Input for DIM must be real, scalar, and double precision." :=
  ⟨dimCheck_inspects_dttType_arg.1 (scalarArg 1) ⟨false, true, [1, 1], [2]⟩ rfl rfl rfl,
   dimCheck_inspects_dttType_arg.2.2 (scalarArg 1) ⟨false, true, [1, 1], [2]⟩ rfl rfl rfl⟩

/-- Claim C10: both entry points truncate the supplied type-code double
toward zero before validating it, so a value v with trunc(v) = t ∈ [1,8]
(for example 2.9) is accepted: the 1D check returns t, the whole 1D
pipeline behaves as for the integer code t, and the 2D type handling
equals the one for t and succeeds. -/
theorem typeCode_truncation (v : Rat) (t : Int) (input : MxArr)
    (dimArg : Option MxArr) (ht : cIntOfDouble v = t) (h1 : 1 ≤ t) (h2 : t ≤ 8) :
    dttTypeCheck1D (scalarArg v) = .ok t ∧
    dtt1Dmex input (scalarArg v) dimArg = dtt1Dmex input (scalarArg (t : Rat)) dimArg ∧
    dttTypes2D (scalarArg v) = dttTypes2D (scalarArg (t : Rat)) ∧
    (dttTypes2D (scalarArg v)).isOk = true := by
  have htInt : cIntOfDouble ((t : Int) : Rat) = t := by
    simp [cIntOfDouble]
  have hrange : t = 1 ∨ t = 2 ∨ t = 3 ∨ t = 4 ∨ t = 5 ∨ t = 6 ∨ t = 7 ∨ t = 8 := by
    omega
  have hcheck : dttTypeCheck1D (scalarArg v) = .ok t := by
    simp [dttTypeCheck1D, scalarArg, MxArr.numElements, ht, hrange]
  have hcheckt : dttTypeCheck1D (scalarArg (t : Rat)) = .ok t := by
    simp [dttTypeCheck1D, scalarArg, MxArr.numElements, htInt, hrange]
  have h2d : dttTypes2D (scalarArg v) = dttTypes2D (scalarArg (t : Rat)) := by
    simp [dttTypes2D, scalarArg, MxArr.numElements, ht, htInt]
  refine ⟨hcheck, ?_, h2d, ?_⟩
  · simp [dtt1Dmex, hcheck, hcheckt, dimOfArg_scalarArg v (t : Rat) dimArg]
  · rw [h2d]
    have : dttTypes2D (scalarArg (t : Rat)) = typeMap2Dscalar t := by
      simp [dttTypes2D, scalarArg, MxArr.numElements, htInt]
    rw [this]
    rcases hrange with rfl | rfl | rfl | rfl | rfl | rfl | rfl | rfl <;> rfl

/-- Witness for C10 at v = 2.9, whose truncation is the valid code 2. -/
theorem typeCode_truncation_witness :
    dttTypeCheck1D (scalarArg (mkRat 29 10)) = .ok 2 ∧
    dtt1Dmex (realArr 4 3) (scalarArg (mkRat 29 10)) none =
      dtt1Dmex (realArr 4 3) (scalarArg ((2 : Int) : Rat)) none ∧
    dttTypes2D (scalarArg (mkRat 29 10)) = dttTypes2D (scalarArg ((2 : Int) : Rat)) ∧
    (dttTypes2D (scalarArg (mkRat 29 10))).isOk = true :=
  typeCode_truncation (mkRat 29 10) 2 (realArr 4 3) none (by decide) (by decide) (by decide)
